import Mathlib

/-!
Verification of the Wodehouse mic-listener capture/endpointing pipeline
(`src/Wodehouse/mic_listener/listener.py`).

The embedding models:
- the energy-fallback frame classifier `is_speech_chunk` (listener.py, `build_vad_fn`),
- the endpointer loop body of `main` (listener.py lines 144-163) as a step
  function `epStep` over an explicit state, folded over a sequence of
  classified frames by `epRun`,
- WAV serialization `write_wav` as a record of the container header fields,
- device resolution `pick_input_device`,
- samplerate resolution (listener.py line 115).

Timing model: `time.time()` is sampled only inside the loop body, after a
frame is dequeued.  Each processed frame therefore carries one timestamp
`now` (in milliseconds), used both when updating `last_voice_ts` and when
evaluating the silence-timeout check of the same iteration.  Python float
seconds are modelled as natural-number milliseconds; the Python truthiness
test `if last_voice_ts` is `false` for `None` and for timestamp `0`.
-/

namespace Wodehouse

/-- A classified frame as consumed by the endpointer loop: the decoded
int16 samples of one block (`np.frombuffer(b, dtype=np.int16)`), the
boolean returned by `is_speech_chunk(b)`, and the wall-clock time (ms) at
which the loop iteration processes the frame. -/
structure FrameIn where
  samples : List Int
  speech : Bool
  now : Nat
deriving DecidableEq, Repr, Inhabited

/-- The mutable state of the endpointer loop in `main`:
`recording`, `buf` (list of buffered frames) and `last_voice_ts`. -/
structure EPState where
  recording : Bool
  buf : List (List Int)
  last_voice_ts : Option Nat
deriving DecidableEq, Repr

/-- A finalized utterance as handed to `write_wav`: the buffered frames in
order, and the wall-clock time (ms) at finalization (the moment
`time.strftime` is called to name the clip). -/
structure Emission where
  frames : List (List Int)
  ts : Nat
deriving DecidableEq, Repr

/-- Initial loop state: `buf = []`, `last_voice_ts = None`, `recording = False`. -/
def epInit : EPState := { recording := false, buf := [], last_voice_ts := none }

/-- One iteration of the endpointer loop body (listener.py lines 145-163):

    b = q.get()
    if is_speech_chunk(b):
        if not recording:
            recording = True
            buf = []
        last_voice_ts = time.time()
    if recording:
        buf.append(np.frombuffer(b, dtype=np.int16))
        if last_voice_ts and (time.time() - last_voice_ts) * 1000 > args.silence_ms:
            clip = np.concatenate(buf) ...  (emitted)
            recording = False
            buf = []

`f.speech` stands for `is_speech_chunk(b)`; `f.now` is the value of
`time.time()` during this iteration, in milliseconds. -/
def epStep (silence_ms : Nat) (s : EPState) (f : FrameIn) : EPState × Option Emission :=
  let s1 : EPState :=
    if f.speech then
      { recording := true
        buf := if s.recording then s.buf else []
        last_voice_ts := some f.now }
    else s
  if s1.recording then
    let buf2 := s1.buf ++ [f.samples]
    let fire : Bool :=
      match s1.last_voice_ts with
      | none => false
      | some t => decide (t ≠ 0) && decide (silence_ms < f.now - t)
    if fire then
      ({ recording := false, buf := [], last_voice_ts := s1.last_voice_ts },
        some { frames := buf2, ts := f.now })
    else
      ({ s1 with buf := buf2 }, none)
  else (s1, none)

/-- The endpointer loop folded over a finite prefix of the dequeued frame
sequence, collecting the finalized utterances in emission order. -/
def epRun (silence_ms : Nat) (s : EPState) : List FrameIn → EPState × List Emission
  | [] => (s, [])
  | f :: rest =>
    let r1 := epStep silence_ms s f
    let r2 := epRun silence_ms r1.1 rest
    (r2.1, r1.2.toList ++ r2.2)

/-- The endpointer loop with a fallible clip write.  `writeOk em = false`
models `write_wav` raising (e.g. unwritable output directory); the loop
body has no handler for that exception (the surrounding `try` catches only
`KeyboardInterrupt`), so the exception propagates and the loop terminates
with the remaining frames unconsumed. -/
def epRunF (silence_ms : Nat) (writeOk : Emission → Bool) (s : EPState) :
    List FrameIn → Except Emission (EPState × List Emission)
  | [] => Except.ok (s, [])
  | f :: rest =>
    match epStep silence_ms s f with
    | (s1, none) => epRunF silence_ms writeOk s1 rest
    | (s1, some em) =>
      if writeOk em then
        match epRunF silence_ms writeOk s1 rest with
        | Except.ok (s2, ems) => Except.ok (s2, em :: ems)
        | Except.error e => Except.error e
      else
        Except.error em

/-- Models `time.strftime("%Y%m%d_%H%M%S")` at second resolution: the
wall-clock timestamp truncated from milliseconds to whole seconds. -/
def strftimeSec (now_ms : Nat) : Nat := now_ms / 1000

/-- The clip file name `f"clip_\x7bts\x7d.wav"` built in `main` at
finalization time (listener.py lines 157-158), with the strftime text
abstracted to the truncated-to-seconds timestamp. -/
def clipFileName (now_ms : Nat) : String :=
  "clip_" ++ Nat.repr (strftimeSec now_ms) ++ ".wav"

/-- `np.abs` applied to one element of an int16 array: the absolute value
computed in int16 two's-complement arithmetic, which wraps, so
`np.abs(int16(-32768)) = -32768`.  For any other in-range sample it is the
ordinary absolute value. -/
def npAbs16 (x : Int) : Int := (|x| + 32768) % 65536 - 32768

/-- Mean of `np.abs(arr)` for a decoded int16 frame, `np.abs` taken with
int16 wraparound (`npAbs16`) and the mean as an exact rational (`0` for
the empty frame, where the source never evaluates the mean; the float64
mean is exact at the magnitudes involved here). -/
def meanAbsAmp (arr : List Int) : ℚ :=
  (((arr.map npAbs16).sum : Int) : ℚ) / (arr.length : ℚ)

/-- The energy-fallback classifier returned by `build_vad_fn` when WebRTC
VAD is unavailable (listener.py lines 81-88):

    THRESH = 300.0
    arr = np.frombuffer(b, dtype=np.int16)
    if arr.size == 0: return False
    return float(np.abs(arr).mean()) > THRESH

`np.abs(arr)` is an int16 array and wraps `-32768` to `-32768`; the
promotion to float happens only at the mean. -/
def is_speech_chunk (arr : List Int) : Bool :=
  if arr.length = 0 then false
  else decide ((300 : ℚ) < meanAbsAmp arr)

/-- The WAV container header and payload produced by `write_wav`
(listener.py lines 41-47): channel count 1, sample width 2 bytes (16-bit),
frame rate equal to the `samplerate` argument, and the concatenated
samples. -/
structure WavFile where
  nchannels : Nat
  sampwidth : Nat
  framerate : Nat
  payload : List Int
deriving DecidableEq, Repr

/-- `write_wav(path, audio, samplerate)`: writes mono 16-bit PCM at the
given sample rate. -/
def write_wav (audio : List Int) (samplerate : Nat) : WavFile :=
  { nchannels := 1, sampwidth := 2, framerate := samplerate, payload := audio }

/-- `clip = np.concatenate(buf)`: the samples of a finalized utterance. -/
def concatClip (em : Emission) : List Int := em.frames.flatten

/-- One entry of `sd.query_devices()` as used by `pick_input_device`. -/
structure Device where
  name : String
  max_input_channels : Nat
  default_samplerate : Nat
deriving DecidableEq, Repr

/-- `needle` occurs as a contiguous substring of `hay` starting at the
head (`charsSub` below scans all start positions). -/
def charsHere : List Char → List Char → Bool
  | [], _ => true
  | _ :: _, [] => false
  | a :: as, b :: bs => a == b && charsHere as bs

/-- Python substring containment `needle in hay` on character lists. -/
def charsSub : List Char → List Char → Bool
  | needle, [] => needle.isEmpty
  | needle, b :: bs => charsHere needle (b :: bs) || charsSub needle bs

/-- Python `str.lower()` (ASCII case folding suffices for device names). -/
def pyLower (s : String) : String := ⟨s.data.map Char.toLower⟩

/-- Python `str.isdigit()`: nonempty and all characters are digits. -/
def pyIsDigit (s : String) : Bool := !s.data.isEmpty && s.data.all Char.isDigit

/-- Python `int()` on a digit string: the decimal value of its digits. -/
def pyInt (s : String) : Nat :=
  s.data.foldl (fun acc c => acc * 10 + (c.toNat - 48)) 0

/-- The substring test of the device loop (listener.py line 63):
`d["max_input_channels"] > 0 and name in d["name"].lower()`, where `nm`
is the already-lowercased selector. -/
def inputMatch (nm : String) (d : Device) : Bool :=
  decide (d.max_input_channels > 0) && charsSub nm.data (pyLower d.name).data

/-- The `for i, d in enumerate(devs)` substring search (listener.py lines
62-64): index of the first input-capable device whose lowercased name
contains `nm`, counting from `i`. -/
def findByName (nm : String) : List Device → Nat → Option Nat
  | [], _ => none
  | d :: rest, i => if inputMatch nm d then some i else findByName nm rest (i + 1)

/-- The auto-pick loop (listener.py lines 67-69): index of the first
device with `max_input_channels > 0`, counting from `i`. -/
def findFirstInput : List Device → Nat → Option Nat
  | [], _ => none
  | d :: rest, i =>
    if decide (d.max_input_channels > 0) then some i else findFirstInput rest (i + 1)

/-- Models `sd.check_input_settings(device=idx, channels=1)`: succeeds when
the index names an existing device able to open one input channel. -/
def check_input_settings (devs : List Device) (idx : Nat) : Bool :=
  match devs[idx]? with
  | some d => decide (d.max_input_channels ≥ 1)
  | none => false

/-- `pick_input_device(preferred)` (listener.py lines 50-70).  A digit
selector resolves by exact index (after the input-settings check); any
other non-`None` selector is matched case-insensitively as a substring
against input-capable device names, first match wins; `None` auto-picks
the first input-capable device.  Failures raise `RuntimeError`, modelled
as `Except.error` carrying the message. -/
def pick_input_device (devs : List Device) (preferred : Option String) : Except String Nat :=
  match preferred with
  | some p =>
    if pyIsDigit p then
      let idx := pyInt p
      if check_input_settings devs idx then Except.ok idx
      else Except.error "check_input_settings rejected the device index"
    else
      match findByName (pyLower p) devs 0 with
      | some i => Except.ok i
      | none => Except.error "Requested device not found or not input-capable."
  | none =>
    match findFirstInput devs 0 with
    | some i => Except.ok i
    | none => Except.error "No input-capable audio device found."

/-- `argparse` resolution of `--samplerate`: the option has
`default=16000`, so an unset option parses to `16000`. -/
def parsed_samplerate (user : Option Nat) : Nat := user.getD 16000

/-- The effective sample rate (listener.py line 115):

    samplerate = int(args.samplerate or dev_info.get("default_samplerate", 16000)) or 16000

Python `or` takes the left operand unless it is falsy (`0`). -/
def resolve_samplerate (argSr : Nat) (devDefault : Option Nat) : Nat :=
  let x := if argSr ≠ 0 then argSr else devDefault.getD 16000
  if x ≠ 0 then x else 16000

/-- The scenario classification sequence of spec section 8 item 7:
`[speech, speech, silence x9]`, one frame per 30 ms (`block_ms = 30`),
first frame processed at wall-clock 100000 ms.  Frame payloads are tagged
`[k]` so emitted utterances can be told apart. -/
def c2Inputs : List FrameIn :=
  [ { samples := [1], speech := true, now := 100000 },
    { samples := [2], speech := true, now := 100030 },
    { samples := [3], speech := false, now := 100060 },
    { samples := [4], speech := false, now := 100090 },
    { samples := [5], speech := false, now := 100120 },
    { samples := [6], speech := false, now := 100150 },
    { samples := [7], speech := false, now := 100180 },
    { samples := [8], speech := false, now := 100210 },
    { samples := [9], speech := false, now := 100240 },
    { samples := [10], speech := false, now := 100270 },
    { samples := [11], speech := false, now := 100300 } ]

/-- A two-frame episode whose capture starts at wall-clock second 1000 and
finalizes at wall-clock second 1002 (`silence_ms = 1500`). -/
def c6Inputs : List FrameIn :=
  [ { samples := [1], speech := true, now := 1000000 },
    { samples := [2], speech := false, now := 1002000 } ]

/-- An episode that finalizes on its second frame and is followed by a
further speech frame, used to examine behaviour after a failed clip
write. -/
def c4Inputs : List FrameIn :=
  [ { samples := [1], speech := true, now := 1000000 },
    { samples := [2], speech := false, now := 1002000 },
    { samples := [3], speech := true, now := 1002030 } ]

/-- A 100-sample int16 frame whose true mean absolute amplitude is
exactly 400: one `-32768` sample (which `np.abs` wraps to `-32768`), one
`78`, and ninety-eight `73`s. -/
def c7Frame : List Int := -32768 :: 78 :: List.replicate 98 73

/-- A device inventory with an output-only device at index 0 and
input-capable devices at indices 1 and 2. -/
def devs0 : List Device :=
  [ { name := "Speakers", max_input_channels := 0, default_samplerate := 44100 },
    { name := "Built-in Mic", max_input_channels := 1, default_samplerate := 44100 },
    { name := "USB Microphone", max_input_channels := 1, default_samplerate := 16000 } ]

/-- Helper: the number of emissions of a run is bounded by the number of
frames consumed (at most one finalization per dequeued frame). -/
lemma epRun_emissions_le (silence_ms : Nat) :
    ∀ (fs : List FrameIn) (s : EPState),
      ((epRun silence_ms s fs).2).length ≤ fs.length := by
  intro fs
  induction fs with
  | nil => intro s; simp [epRun]
  | cons f rest ih =>
    intro s
    simp only [epRun, List.length_append, List.length_cons]
    have h1 : ((epStep silence_ms s f).2.toList).length ≤ 1 := by
      cases (epStep silence_ms s f).2 <;> simp
    have h2 := ih (epStep silence_ms s f).1
    omega

/-- C1: in `Idle` (`recording = False`), a frame classified non-speech is
discarded with no state change and no emission; a frame classified speech
moves the endpointer to `Recording` with that frame as the sole (hence
first) element of the fresh utterance buffer, and cannot finalize in the
same iteration. -/
theorem c1_idle_transitions (silence_ms : Nat) (s : EPState) (f : FrameIn)
    (hidle : s.recording = false) :
    (f.speech = false → epStep silence_ms s f = (s, none)) ∧
    (f.speech = true →
      epStep silence_ms s f =
        ({ recording := true, buf := [f.samples], last_voice_ts := some f.now }, none)) := by
  constructor
  · intro hsp
    simp [epStep, hsp, hidle]
  · intro hsp
    simp [epStep, hsp, hidle, Nat.sub_self]

/-- C1 witness: concrete `Idle` transitions for a discarded non-speech
frame and for an utterance-opening speech frame. -/
theorem c1_idle_transitions_witness :
    epStep 1500 epInit { samples := [5], speech := false, now := 1000 } = (epInit, none) ∧
    epStep 1500 epInit { samples := [5], speech := true, now := 1000 } =
      ({ recording := true, buf := [[5]], last_voice_ts := some 1000 }, none) :=
  ⟨(c1_idle_transitions 1500 epInit { samples := [5], speech := false, now := 1000 } rfl).1 rfl,
   (c1_idle_transitions 1500 epInit { samples := [5], speech := true, now := 1000 } rfl).2 rfl⟩

/-- C3: the emitted utterance is exactly the frames appended between entry
into `Recording` and finalization.  Entry stores the opening speech frame
as the sole buffer element; every frame consumed while recording (speech
or not) is appended; when the silence timeout fires, the emission is the
whole buffer including the triggering frame, with no trailing frame
trimmed, and the buffer is cleared. -/
theorem c3_buffer_exact (silence_ms : Nat) (s : EPState) (f : FrameIn) :
    (s.recording = false → f.speech = true →
      (epStep silence_ms s f).1.buf = [f.samples] ∧ (epStep silence_ms s f).2 = none) ∧
    (s.recording = true → (epStep silence_ms s f).2 = none →
      (epStep silence_ms s f).1.buf = s.buf ++ [f.samples]) ∧
    (s.recording = true → ∀ em, (epStep silence_ms s f).2 = some em →
      em.frames = s.buf ++ [f.samples] ∧ (epStep silence_ms s f).1.buf = []) := by
  refine ⟨?_, ?_, ?_⟩
  · intro hr hsp
    simp [epStep, hsp, hr, Nat.sub_self]
  · intro hr hnone
    cases hsp : f.speech
    case false =>
      rcases hlv : s.last_voice_ts with _ | t
      · simp [epStep, hsp, hr, hlv]
      · by_cases ht : t = 0
        · simp [epStep, hsp, hr, hlv, ht]
        · by_cases hcmp : silence_ms < f.now - t
          · simp [epStep, hsp, hr, hlv, ht, hcmp] at hnone
          · simp [epStep, hsp, hr, hlv, ht, hcmp]
    case true =>
      simp [epStep, hsp, hr, Nat.sub_self]
  · intro hr em hsome
    cases hsp : f.speech
    case false =>
      rcases hlv : s.last_voice_ts with _ | t
      · simp [epStep, hsp, hr, hlv] at hsome
      · by_cases ht : t = 0
        · simp [epStep, hsp, hr, hlv, ht] at hsome
        · by_cases hcmp : silence_ms < f.now - t
          · simp [epStep, hsp, hr, hlv, ht, hcmp] at hsome
            constructor
            · rw [← hsome]
            · simp [epStep, hsp, hr, hlv, ht, hcmp]
          · simp [epStep, hsp, hr, hlv, ht, hcmp] at hsome
    case true =>
      simp [epStep, hsp, hr, Nat.sub_self] at hsome

/-- C3 witness: while recording, a non-speech frame below the timeout is
appended after the existing buffered frames; at the timeout, the emission
is the full buffer with the triggering frame last. -/
theorem c3_buffer_exact_witness :
    (epStep 1500 { recording := true, buf := [[7]], last_voice_ts := some 1000 }
        { samples := [9], speech := false, now := 1100 }).1.buf = [[7]] ++ [[9]] ∧
    (({ frames := [[1], [2]], ts := 1002000 } : Emission).frames = [[1]] ++ [[2]] ∧
      (epStep 1500 { recording := true, buf := [[1]], last_voice_ts := some 1000000 }
        { samples := [2], speech := false, now := 1002000 }).1.buf = []) :=
  ⟨(c3_buffer_exact 1500 { recording := true, buf := [[7]], last_voice_ts := some 1000 }
      { samples := [9], speech := false, now := 1100 }).2.1 rfl rfl,
   (c3_buffer_exact 1500 { recording := true, buf := [[1]], last_voice_ts := some 1000000 }
      { samples := [2], speech := false, now := 1002000 }).2.2 rfl
      { frames := [[1], [2]], ts := 1002000 } rfl⟩

/-- C10: the silence timeout is evaluated only inside a loop iteration
that has dequeued a frame.  Running the endpointer over an empty frame
sequence leaves every state (however old its `last_voice_ts`) unchanged
and emits nothing, and a run can finalize at most once per consumed
frame. -/
theorem c10_no_frames_no_finalize (silence_ms : Nat) (s : EPState) :
    epRun silence_ms s [] = (s, []) ∧
    ∀ fs : List FrameIn, ((epRun silence_ms s fs).2).length ≤ fs.length :=
  ⟨rfl, fun fs => epRun_emissions_le silence_ms fs s⟩

/-- C2 counterexample: with `silence_ms = 150` and frames 30 ms apart, the
run over the first 7 frames of the scenario emits nothing (after the 7th
frame the elapsed silence is exactly 150 ms, and the finalize condition is
strictly greater-than), so the Endpointer does not finalize after the 7th
frame, and the full run's single utterance has 8 frames, not 7. -/
theorem c2_seventh_frame_refuted :
    (epRun 150 epInit (c2Inputs.take 7)).2 = [] ∧
    (epRun 150 epInit c2Inputs).2.map (fun e => e.frames.length) ≠ [7] := by
  exact ⟨rfl, by decide⟩

/-- C2 amended: the Endpointer is still recording after the 7th frame,
finalizes on the 8th frame (elapsed silence 180 ms > 150 ms), emitting an
8-frame utterance (2 speech + 6 trailing silence), and the remaining 3
silence frames are processed in `Idle` and discarded (the full run emits
nothing further and ends `Idle` with an empty buffer). -/
theorem c2_scenario_amended :
    (epRun 150 epInit (c2Inputs.take 7)).1.recording = true ∧
    (epRun 150 epInit (c2Inputs.take 8)).2.map (fun e => e.frames.length) = [8] ∧
    (epRun 150 epInit c2Inputs).2.map (fun e => e.frames.length) = [8] ∧
    (epRun 150 epInit c2Inputs).1 =
      { recording := false, buf := [], last_voice_ts := some 100030 } := by
  exact ⟨rfl, rfl, rfl, rfl⟩

/-- C6 counterexample: an utterance whose capture starts at wall-clock
second 1000 and finalizes at second 1002 is written under the
finalization-time name `clip_1002.wav`, not the capture-start name
`clip_1000.wav`. -/
theorem c6_clip_name_refuted :
    (epRun 1500 epInit c6Inputs).2.map (fun e => clipFileName e.ts) = ["clip_1002.wav"] ∧
    ("clip_1002.wav" : String) ≠ "clip_1000.wav" ∧
    clipFileName ((c6Inputs.headI).now) = "clip_1000.wav" := by
  exact ⟨rfl, by decide, rfl⟩

/-- C6 amended: every emission the step function produces is stamped with
the wall-clock time of the iteration that triggered finalization, and the
clip file name encodes that finalization time at second resolution. -/
theorem c6_clip_name_finalize_time (silence_ms : Nat) (s : EPState) (f : FrameIn)
    (em : Emission) (hsome : (epStep silence_ms s f).2 = some em) :
    em.ts = f.now ∧
    clipFileName em.ts = "clip_" ++ Nat.repr (f.now / 1000) ++ ".wav" := by
  have hr : s.recording = true := by
    by_contra hc
    have hr' : s.recording = false := by
      cases h : s.recording
      · rfl
      · exact absurd h hc
    cases hsp : f.speech
    · rw [(c1_idle_transitions silence_ms s f hr').1 hsp] at hsome
      exact Option.noConfusion hsome
    · rw [(c1_idle_transitions silence_ms s f hr').2 hsp] at hsome
      exact Option.noConfusion hsome
  cases hsp : f.speech
  case false =>
    rcases hlv : s.last_voice_ts with _ | t
    · simp [epStep, hsp, hr, hlv] at hsome
    · by_cases ht : t = 0
      · simp [epStep, hsp, hr, hlv, ht] at hsome
      · by_cases hcmp : silence_ms < f.now - t
        · simp [epStep, hsp, hr, hlv, ht, hcmp] at hsome
          rw [← hsome]
          exact ⟨rfl, rfl⟩
        · simp [epStep, hsp, hr, hlv, ht, hcmp] at hsome
  case true =>
    simp [epStep, hsp, hr, Nat.sub_self] at hsome

/-- C6 amended witness: the finalization at wall-clock 1002000 ms stamps
the emission with that time, named `clip_1002.wav`. -/
theorem c6_clip_name_finalize_time_witness :
    ({ frames := [[1], [2]], ts := 1002000 } : Emission).ts = 1002000 ∧
    clipFileName ({ frames := [[1], [2]], ts := 1002000 } : Emission).ts =
      "clip_" ++ Nat.repr (1002000 / 1000) ++ ".wav" :=
  c6_clip_name_finalize_time 1500
    { recording := true, buf := [[1]], last_voice_ts := some 1000000 }
    { samples := [2], speech := false, now := 1002000 }
    { frames := [[1], [2]], ts := 1002000 } rfl

/-- C4 counterexample: with every clip write failing, the capture run over
a sequence that finalizes on its 2nd frame aborts with the propagated
write error; the 3rd frame is never consumed and the Endpointer does not
resume in `Idle`. -/
theorem c4_write_failure_refuted :
    epRunF 1500 (fun _ => false) epInit c4Inputs =
      Except.error { frames := [[1], [2]], ts := 1002000 } := by
  exact rfl

/-- C4 amended: a failed clip write is fatal to the whole capture loop,
not to that utterance only: the iteration that finalizes an emission whose
write fails makes the run abort with that error immediately, with all
remaining frames unconsumed (no reset to `Idle`, no further capture). -/
theorem c4_write_failure_aborts (silence_ms : Nat) (writeOk : Emission → Bool)
    (s : EPState) (f : FrameIn) (fs : List FrameIn) (em : Emission)
    (hem : (epStep silence_ms s f).2 = some em) (hfail : writeOk em = false) :
    epRunF silence_ms writeOk s (f :: fs) = Except.error em := by
  have hpair : epStep silence_ms s f = ((epStep silence_ms s f).1, some em) := by
    rw [← hem]
  simp only [epRunF]
  rw [hpair]
  simp [hfail]

/-- C4 amended witness: the failing write of the utterance finalized at
1002000 ms aborts the run even though a further speech frame follows. -/
theorem c4_write_failure_aborts_witness :
    epRunF 1500 (fun _ => false)
      { recording := true, buf := [[1]], last_voice_ts := some 1000000 }
      [{ samples := [2], speech := false, now := 1002000 },
       { samples := [3], speech := true, now := 1002030 }] =
      Except.error { frames := [[1], [2]], ts := 1002000 } :=
  c4_write_failure_aborts 1500 (fun _ => false)
    { recording := true, buf := [[1]], last_voice_ts := some 1000000 }
    { samples := [2], speech := false, now := 1002000 }
    [{ samples := [3], speech := true, now := 1002030 }]
    { frames := [[1], [2]], ts := 1002000 } rfl rfl

/-- Helper: the enumerate-loop search returns the first matching index
(offset by the running counter `k`). -/
lemma findByName_first (nm : String) :
    ∀ (devs : List Device) (k j : Nat) (d : Device),
      devs[j]? = some d → inputMatch nm d = true →
      (∀ l d', l < j → devs[l]? = some d' → inputMatch nm d' = false) →
      findByName nm devs k = some (k + j) := by
  intro devs
  induction devs with
  | nil => intro k j d hget; simp at hget
  | cons d0 rest ih =>
    intro k j d hget hmatch hfirst
    cases j with
    | zero =>
      simp at hget
      subst hget
      simp [findByName, hmatch]
    | succ j' =>
      have h0 : inputMatch nm d0 = false := hfirst 0 d0 (Nat.succ_pos j') (by simp)
      simp only [List.getElem?_cons_succ] at hget
      have hrest : ∀ l d', l < j' → rest[l]? = some d' → inputMatch nm d' = false := by
        intro l d' hl hget'
        exact hfirst (l + 1) d' (Nat.succ_lt_succ hl) (by simpa using hget')
      have := ih (k + 1) j' d hget hmatch hrest
      simp only [findByName, h0, Bool.false_eq_true, if_false]
      rw [this]
      congr 1
      omega

/-- Helper: the enumerate-loop search fails when no device matches. -/
lemma findByName_none (nm : String) :
    ∀ (devs : List Device) (k : Nat),
      (∀ (l : Nat) (d' : Device), devs[l]? = some d' → inputMatch nm d' = false) →
      findByName nm devs k = none := by
  intro devs
  induction devs with
  | nil => intro k _; rfl
  | cons d0 rest ih =>
    intro k hnone
    have h0 : inputMatch nm d0 = false := hnone 0 d0 (by simp)
    simp only [findByName, h0, Bool.false_eq_true, if_false]
    exact ih (k + 1) fun l d' hget => hnone (l + 1) d' (by simpa using hget)

/-- C5: device resolution.  A digit selector resolves to exactly its index
(when the input-settings check accepts it); a non-digit selector resolves
to the first input-capable device whose lowercased name contains the
lowercased selector; a non-digit selector with no input-capable match
fails with the device-not-found error. -/
theorem c5_device_resolution (devs : List Device) :
    (∀ p n, pyIsDigit p = true → pyInt p = n →
      check_input_settings devs n = true →
      pick_input_device devs (some p) = Except.ok n) ∧
    (∀ p j d, pyIsDigit p = false → devs[j]? = some d →
      inputMatch (pyLower p) d = true →
      (∀ l d', l < j → devs[l]? = some d' → inputMatch (pyLower p) d' = false) →
      pick_input_device devs (some p) = Except.ok j) ∧
    (∀ p, pyIsDigit p = false →
      (∀ (l : Nat) (d' : Device), devs[l]? = some d' → inputMatch (pyLower p) d' = false) →
      pick_input_device devs (some p) =
        Except.error "Requested device not found or not input-capable.") := by
  refine ⟨?_, ?_, ?_⟩
  · intro p n hdig htn hchk
    simp [pick_input_device, hdig, htn, hchk]
  · intro p j d hdig hget hmatch hfirst
    have hfind := findByName_first (pyLower p) devs 0 j d hget hmatch hfirst
    simp [pick_input_device, hdig, hfind]
  · intro p hdig hnone
    have hfind := findByName_none (pyLower p) devs 0 hnone
    simp [pick_input_device, hdig, hfind]

/-- C5 witness: on the concrete inventory, selector `"2"` resolves to
index 2, selector `"usb"` resolves to index 2 (`"USB Microphone"`,
case-insensitively, the earlier devices not matching), and selector
`"nope"` fails with the device-not-found error. -/
theorem c5_device_resolution_witness :
    pick_input_device devs0 (some "2") = Except.ok 2 ∧
    pick_input_device devs0 (some "usb") = Except.ok 2 ∧
    pick_input_device devs0 (some "nope") =
      Except.error "Requested device not found or not input-capable." := by
  refine ⟨?_, ?_, ?_⟩
  · exact (c5_device_resolution devs0).1 "2" 2 (by decide) (by decide) (by decide)
  · refine (c5_device_resolution devs0).2.1 "usb" 2
      { name := "USB Microphone", max_input_channels := 1, default_samplerate := 16000 }
      (by decide) (by decide) (by decide) ?_
    intro l d' hl hget
    interval_cases l <;> simp [devs0] at hget <;> rw [← hget] <;> decide
  · refine (c5_device_resolution devs0).2.2 "nope" (by decide) ?_
    intro l d' hget
    have hlt : l < 3 := by
      by_contra hge
      rw [List.getElem?_eq_none (by simp [devs0]; omega)] at hget
      exact Option.noConfusion hget
    interval_cases l <;> simp [devs0] at hget <;> rw [← hget] <;> decide

/-- Helper: away from the int16 minimum, `np.abs` agrees with the exact
absolute value. -/
lemma npAbs16_eq_abs (x : Int) (hlo : -32768 ≤ x) (hhi : x < 32768)
    (hne : x ≠ -32768) : npAbs16 x = |x| := by
  unfold npAbs16
  rcases abs_cases x with ⟨he, hx⟩ | ⟨he, hx⟩ <;> rw [he] <;> omega

/-- Helper: over an int16-range frame with no `-32768` sample, the
wrapped absolute sum equals the exact absolute sum. -/
lemma sum_npAbs16_eq (arr : List Int)
    (hr : ∀ x ∈ arr, -32768 ≤ x ∧ x < 32768)
    (hne : ∀ x ∈ arr, x ≠ -32768) :
    (((arr.map npAbs16).sum : Int) : ℚ) =
      (arr.map (fun x : Int => |(x : ℚ)|)).sum := by
  induction arr with
  | nil => simp
  | cons a as ih =>
    simp only [List.map_cons, List.sum_cons, Int.cast_add]
    rw [npAbs16_eq_abs a (hr a (List.mem_cons_self a as)).1
        (hr a (List.mem_cons_self a as)).2 (hne a (List.mem_cons_self a as))]
    rw [ih (fun x hx => hr x (List.mem_cons_of_mem a hx))
        (fun x hx => hne x (List.mem_cons_of_mem a hx))]
    congr 1
    exact Int.cast_abs

/-- C7 counterexample: `c7Frame` has true mean absolute 16-bit amplitude
exactly 400, yet the classifier returns `false`: `np.abs` wraps its
`-32768` sample to `-32768`, so the program's mean is `-255.36 < 300`. -/
theorem c7_wrap_refuted :
    (c7Frame.map (fun x : Int => |(x : ℚ)|)).sum / (c7Frame.length : ℚ) = 400 ∧
    is_speech_chunk c7Frame = false := by
  constructor
  · norm_num [c7Frame, List.sum_replicate]
  · have hm : meanAbsAmp c7Frame = -25536 / 100 := by
      norm_num [meanAbsAmp, c7Frame, npAbs16, List.sum_replicate]
    have hlen : ¬ c7Frame.length = 0 := by norm_num [c7Frame]
    simp only [is_speech_chunk, hlen, if_false, hm]
    norm_num

/-- C7 amended: against the fixed threshold 300, the classifier returns
`true` for a frame whose mean of `np.abs` (absolute values taken with
int16 wraparound, as the program computes them) is 400, `false` when that
mean is 100, and `false` for an empty frame; for an int16-range frame
containing no `-32768` sample this mean coincides with the true mean
absolute amplitude, recovering the original claim for such frames. -/
theorem c7_energy_classifier_wrapped :
    (∀ arr : List Int, arr ≠ [] → meanAbsAmp arr = 400 → is_speech_chunk arr = true) ∧
    (∀ arr : List Int, meanAbsAmp arr = 100 → is_speech_chunk arr = false) ∧
    is_speech_chunk [] = false ∧
    (∀ arr : List Int, (∀ x ∈ arr, -32768 ≤ x ∧ x < 32768) →
      (∀ x ∈ arr, x ≠ -32768) →
      meanAbsAmp arr =
        (arr.map (fun x : Int => |(x : ℚ)|)).sum / (arr.length : ℚ)) := by
  refine ⟨?_, ?_, rfl, ?_⟩
  · intro arr hne hmean
    have hlen : ¬ arr.length = 0 := by
      simpa [List.length_eq_zero] using hne
    simp [is_speech_chunk, hlen, hmean]
    norm_num
  · intro arr hmean
    by_cases hlen : arr.length = 0
    · simp [is_speech_chunk, hlen]
    · simp [is_speech_chunk, hlen, hmean]
      norm_num
  · intro arr hr hne
    unfold meanAbsAmp
    rw [sum_npAbs16_eq arr hr hne]

/-- C7 amended witness: concrete one-sample frames whose wrapped mean is
400 and 100 (the latter from a negative sample, where the wrapped and
exact means agree), and the empty frame. -/
theorem c7_energy_classifier_wrapped_witness :
    is_speech_chunk [400] = true ∧
    is_speech_chunk [-100] = false ∧
    is_speech_chunk [] = false ∧
    meanAbsAmp [-100] =
      (([-100] : List Int).map (fun x : Int => |(x : ℚ)|)).sum /
        ((([-100] : List Int).length : Nat) : ℚ) :=
  ⟨c7_energy_classifier_wrapped.1 [400] (by decide) (by norm_num [meanAbsAmp, npAbs16]),
   c7_energy_classifier_wrapped.2.1 [-100] (by norm_num [meanAbsAmp, npAbs16]),
   c7_energy_classifier_wrapped.2.2.1,
   c7_energy_classifier_wrapped.2.2.2 [-100] (by decide) (by decide)⟩

/-- C8: for any emission of any endpointer run and any configured sample
rate in \x7b8000, 16000, 44100\x7d Hz, the written WAV container records
channel count 1, sample width 2 bytes (16 bits), and frame rate equal to
the configured capture sample rate. -/
theorem c8_wav_header (sr : Nat) (_hsr : sr = 8000 ∨ sr = 16000 ∨ sr = 44100)
    (silence_ms : Nat) (s : EPState) (fs : List FrameIn) (em : Emission)
    (_hem : em ∈ (epRun silence_ms s fs).2) :
    (write_wav (concatClip em) sr).nchannels = 1 ∧
    (write_wav (concatClip em) sr).sampwidth = 2 ∧
    (write_wav (concatClip em) sr).framerate = sr :=
  ⟨rfl, rfl, rfl⟩

/-- C8 witness: the utterance finalized in the two-frame run, written at
16000 Hz. -/
theorem c8_wav_header_witness :
    (write_wav (concatClip { frames := [[1], [2]], ts := 1002000 }) 16000).nchannels = 1 ∧
    (write_wav (concatClip { frames := [[1], [2]], ts := 1002000 }) 16000).sampwidth = 2 ∧
    (write_wav (concatClip { frames := [[1], [2]], ts := 1002000 }) 16000).framerate = 16000 :=
  c8_wav_header 16000 (Or.inr (Or.inl rfl)) 1500 epInit c6Inputs
    { frames := [[1], [2]], ts := 1002000 } (by decide)

/-- C9 counterexample: with the samplerate option unset (so `argparse`
supplies its default 16000) and a device reporting default sample rate
48000, the effective capture rate is 16000, not the device's reported
default. -/
theorem c9_samplerate_refuted :
    resolve_samplerate (parsed_samplerate none) (some 48000) ≠ 48000 := by
  decide

/-- C9 amended: when the samplerate option is unset, the effective rate is
the option's own default 16000 regardless of the device's reported
default; the device's reported default is consulted only when the parsed
samplerate is falsy (explicitly 0), with 16000 as the final fallback when
that too is absent. -/
theorem c9_samplerate_resolution :
    (∀ devDefault : Option Nat,
      resolve_samplerate (parsed_samplerate none) devDefault = 16000) ∧
    (∀ d : Nat, d ≠ 0 → resolve_samplerate 0 (some d) = d) ∧
    resolve_samplerate 0 none = 16000 := by
  refine ⟨?_, ?_, rfl⟩
  · intro devDefault; rfl
  · intro d hd
    simp [resolve_samplerate, hd]

/-- C9 amended witness: unset samplerate with a 22050 Hz device default
yields 16000; an explicit samplerate of 0 falls back to the device
default 22050. -/
theorem c9_samplerate_resolution_witness :
    resolve_samplerate (parsed_samplerate none) (some 22050) = 16000 ∧
    resolve_samplerate 0 (some 22050) = 22050 :=
  ⟨c9_samplerate_resolution.1 (some 22050),
   c9_samplerate_resolution.2.1 22050 (by decide)⟩

end Wodehouse
